import Mathlib

/-!
# Session bridge of `native-lib.cpp`

A shallow embedding of the two JNI entry points of
`app/src/main/cpp/native-lib.cpp`,

* `Java_com_lucas_vpnapp_MainActivity_startTun2proxy`
* `Java_com_lucas_vpnapp_MainActivity_stopTun2proxy`

together with the file-local variable `t2p_handle` they share.

The C++ code talks to three things it does not own: the dynamic loader
(`dlopen`, `dlsym`), the JNI environment (`GetStringUTFChars`,
`ReleaseStringUTFChars`) and the engine functions found through `dlsym`.
Their behaviour is a parameter of the model (`World`), so every theorem
below holds for every loader, every JNI environment and every engine.
Each call returns, besides the `jint` status and the new value of
`t2p_handle`, the list of external calls it made, in program order.

Pointers are natural numbers, `0` being `NULL`.  `jint` and the engine's
`int` are both 32-bit signed, so `return r;` converts nothing and the
values are modelled as `Int`.
-/

namespace NativeLib

/-- A `void*` / function pointer; `0` is `NULL`. -/
abbrev Ptr := Nat

/-- A `jstring` reference handed in by the host. -/
abbrev JString := String

/-- A `const char*` as produced by `GetStringUTFChars`; `none` is `NULL`. -/
abbrev CString := Option String

/-- The value of `RTLD_LAZY` in `<dlfcn.h>`. -/
def RTLD_LAZY : Int := 1

/-- Modelled from the spec: the parameter list of the engine's run entry
point `pfn_tun2proxy_with_fd_run`, declared in `tun2proxy.h`, in the order
`(proxy_endpoint, tun_fd, close_fd_on_drop, some_reserved_bool, tun_mtu,
dns_strategy, verbosity)`.  The two casts at the call site,
`(Tun2proxyDns)` in sixth and `(Tun2proxyVerbosity)` in seventh position,
agree with that order. -/
structure RunArgs where
  proxy_endpoint : CString
  tun_fd : Int
  close_fd_on_drop : Bool
  some_reserved_bool : Bool
  tun_mtu : Nat
  dns_strategy : Int
  verbosity : Int
  deriving DecidableEq

/-- Everything outside the bridge that one call can reach. -/
structure World where
  /-- The loader call `dlopen(name, flag)`; `0` when the library cannot be loaded. -/
  dlopen : String → Int → Ptr
  /-- The loader call `dlsym(handle, symbol)`; `0` when the symbol is not found. -/
  dlsym : Ptr → String → Ptr
  /-- The JNI call `env->GetStringUTFChars(s, NULL)`. -/
  GetStringUTFChars : JString → CString
  /-- Calling the function at an address as `pfn_tun2proxy_with_fd_run`. -/
  call_run : Ptr → RunArgs → Int
  /-- Calling the function at an address as `pfn_tun2proxy_with_fd_stop`. -/
  call_stop : Ptr → Int

/-- The external calls a bridge function makes, each with what it returned
(`result`). -/
inductive Event where
  | dlopen (name : String) (flag : Int) (result : Ptr)
  | dlsym (handle : Ptr) (symbol : String) (result : Ptr)
  | getStringUTFChars (s : JString) (result : CString)
  | run (fn : Ptr) (args : RunArgs) (result : Int)
  | releaseStringUTFChars (s : JString) (chars : CString)
  | stop (fn : Ptr) (result : Int)
  deriving DecidableEq

/-- The state of the bridge: `static void* t2p_handle`. -/
structure Bridge where
  t2p_handle : Ptr
  deriving DecidableEq

/-- The state at process start: `static void* t2p_handle = NULL;`. -/
def Bridge.init : Bridge := ⟨0⟩

/-- What a JNI call leaves behind: the returned `jint`, the bridge state and
the external calls made. -/
structure Outcome where
  ret : Int
  state : Bridge
  trace : List Event
  deriving DecidableEq

/-- The host-side arguments of `startTun2proxy`, in the order of the C++
parameter list (`jboolean` is an unsigned byte, `jchar` an unsigned 16-bit
value). -/
structure StartArgs where
  proxy_url : JString
  tun_fd : Int
  close_fd_on_drop : Nat
  tun_mtu : Nat
  verbosity : Int
  dns_strategy : Int
  deriving DecidableEq

/-- The argument tuple the call site on lines 41-42 builds:
`t2p_run(nativeString, tun_fd, close_fd_on_drop, false, tun_mtu,
(Tun2proxyDns)verbosity, (Tun2proxyVerbosity)dns_strategy)`.
The `jboolean` converts to `bool` (non-zero is `true`); the enum casts keep
the integer value. -/
def runArgs (nativeString : CString) (a : StartArgs) : RunArgs :=
  { proxy_endpoint := nativeString
    tun_fd := a.tun_fd
    close_fd_on_drop := decide (a.close_fd_on_drop ≠ 0)
    some_reserved_bool := false
    tun_mtu := a.tun_mtu
    dns_strategy := a.verbosity
    verbosity := a.dns_strategy }

/-- The JNI function `Java_com_lucas_vpnapp_MainActivity_startTun2proxy`. -/
def startTun2proxy (w : World) (s : Bridge) (a : StartArgs) : Outcome :=
  if s.t2p_handle ≠ 0 then
    ⟨-3, s, []⟩
  else
    let h := w.dlopen "libtun2proxy.so" RTLD_LAZY
    let s1 : Bridge := ⟨h⟩
    let t1 := [Event.dlopen "libtun2proxy.so" RTLD_LAZY h]
    if h = 0 then
      ⟨-1, s1, t1⟩
    else
      let t2p_run := w.dlsym h "tun2proxy_with_fd_run"
      let t2 := t1 ++ [Event.dlsym h "tun2proxy_with_fd_run" t2p_run]
      if t2p_run = 0 then
        ⟨-2, s1, t2⟩
      else
        let nativeString := w.GetStringUTFChars a.proxy_url
        let args := runArgs nativeString a
        let r := w.call_run t2p_run args
        ⟨r, ⟨0⟩,
          t2 ++ [Event.getStringUTFChars a.proxy_url nativeString,
                 Event.run t2p_run args r,
                 Event.releaseStringUTFChars a.proxy_url nativeString]⟩

/-- The JNI function `Java_com_lucas_vpnapp_MainActivity_stopTun2proxy`. -/
def stopTun2proxy (w : World) (s : Bridge) : Outcome :=
  if s.t2p_handle = 0 then
    ⟨-1, s, []⟩
  else
    let tun_stop := w.dlsym s.t2p_handle "tun2proxy_with_fd_stop"
    let t1 := [Event.dlsym s.t2p_handle "tun2proxy_with_fd_stop" tun_stop]
    if tun_stop = 0 then
      ⟨-2, s, t1⟩
    else
      let r := w.call_stop tun_stop
      ⟨r, s, t1 ++ [Event.stop tun_stop r]⟩

/-- A run of consecutive `stop` calls, one world per call: the statuses
returned, in order, and the final bridge state. -/
def stopSeq : List World → Bridge → List Int × Bridge
  | [], s => ([], s)
  | w :: ws, s =>
    let o := stopTun2proxy w s
    let rest := stopSeq ws o.state
    (o.ret :: rest.1, rest.2)

/-- Whether an event is a call into the engine (run or stop entry point). -/
def Event.isEngineCall : Event → Bool
  | .run _ _ _ => true
  | .stop _ _ => true
  | _ => false

/-- The arguments the engine's run entry point received during a call, if it
was invoked. -/
def engineArgs : List Event → Option RunArgs
  | [] => none
  | .run _ args _ :: _ => some args
  | _ :: t => engineArgs t

/-- The status the engine's run entry point reported during a call, if it
was invoked. -/
def engineStatus : List Event → Option Int
  | [] => none
  | .run _ _ r :: _ => some r
  | _ :: t => engineStatus t

/-! ## Concrete worlds and inputs -/

/-- The host call of end-to-end scenario A:
`start("socks5://127.0.0.1:1080", 42, true, 1500, 1, 0)`. -/
def scenarioA : StartArgs :=
  { proxy_url := "socks5://127.0.0.1:1080"
    tun_fd := 42
    close_fd_on_drop := 1
    tun_mtu := 1500
    verbosity := 1
    dns_strategy := 0 }

/-- A world whose library loads at address `7`, whose symbols all resolve
(at address `11`), and whose engine reports status `r` from both entry
points. -/
def mockWorld (r : Int) : World :=
  { dlopen := fun _ _ => 7
    dlsym := fun _ _ => 11
    GetStringUTFChars := fun s => some s
    call_run := fun _ _ => r
    call_stop := fun _ => r }

/-- A world in which the engine library is absent. -/
def absentWorld : World :=
  { dlopen := fun _ _ => 0
    dlsym := fun _ _ => 0
    GetStringUTFChars := fun s => some s
    call_run := fun _ _ => 0
    call_stop := fun _ => 0 }

/-- A world whose library loads at address `7` but exports neither entry
point. -/
def noSymbolWorld : World :=
  { dlopen := fun _ _ => 7
    dlsym := fun _ _ => 0
    GetStringUTFChars := fun s => some s
    call_run := fun _ _ => 0
    call_stop := fun _ => 0 }

/-! ## The four paths of `startTun2proxy` and the three of `stopTun2proxy` -/

theorem start_held (w : World) (s : Bridge) (a : StartArgs)
    (hs : s.t2p_handle ≠ 0) :
    startTun2proxy w s a = ⟨-3, s, []⟩ := by
  simp [startTun2proxy, hs]

theorem start_load_failed (w : World) (s : Bridge) (a : StartArgs)
    (hs : s.t2p_handle = 0)
    (hl : w.dlopen "libtun2proxy.so" RTLD_LAZY = 0) :
    startTun2proxy w s a
      = ⟨-1, ⟨0⟩, [Event.dlopen "libtun2proxy.so" RTLD_LAZY 0]⟩ := by
  simp [startTun2proxy, hs, hl]

theorem start_unresolved (w : World) (s : Bridge) (a : StartArgs)
    (hs : s.t2p_handle = 0)
    (hl : w.dlopen "libtun2proxy.so" RTLD_LAZY ≠ 0)
    (hr : w.dlsym (w.dlopen "libtun2proxy.so" RTLD_LAZY)
            "tun2proxy_with_fd_run" = 0) :
    startTun2proxy w s a
      = ⟨-2, ⟨w.dlopen "libtun2proxy.so" RTLD_LAZY⟩,
          [Event.dlopen "libtun2proxy.so" RTLD_LAZY
             (w.dlopen "libtun2proxy.so" RTLD_LAZY),
           Event.dlsym (w.dlopen "libtun2proxy.so" RTLD_LAZY)
             "tun2proxy_with_fd_run" 0]⟩ := by
  simp [startTun2proxy, hs, hl, hr]

theorem start_invoked (w : World) (s : Bridge) (a : StartArgs)
    (hs : s.t2p_handle = 0)
    (hl : w.dlopen "libtun2proxy.so" RTLD_LAZY ≠ 0)
    (hr : w.dlsym (w.dlopen "libtun2proxy.so" RTLD_LAZY)
            "tun2proxy_with_fd_run" ≠ 0) :
    startTun2proxy w s a
      = ⟨w.call_run
            (w.dlsym (w.dlopen "libtun2proxy.so" RTLD_LAZY)
              "tun2proxy_with_fd_run")
            (runArgs (w.GetStringUTFChars a.proxy_url) a),
          ⟨0⟩,
          [Event.dlopen "libtun2proxy.so" RTLD_LAZY
             (w.dlopen "libtun2proxy.so" RTLD_LAZY),
           Event.dlsym (w.dlopen "libtun2proxy.so" RTLD_LAZY)
             "tun2proxy_with_fd_run"
             (w.dlsym (w.dlopen "libtun2proxy.so" RTLD_LAZY)
               "tun2proxy_with_fd_run"),
           Event.getStringUTFChars a.proxy_url
             (w.GetStringUTFChars a.proxy_url),
           Event.run
             (w.dlsym (w.dlopen "libtun2proxy.so" RTLD_LAZY)
               "tun2proxy_with_fd_run")
             (runArgs (w.GetStringUTFChars a.proxy_url) a)
             (w.call_run
               (w.dlsym (w.dlopen "libtun2proxy.so" RTLD_LAZY)
                 "tun2proxy_with_fd_run")
               (runArgs (w.GetStringUTFChars a.proxy_url) a)),
           Event.releaseStringUTFChars a.proxy_url
             (w.GetStringUTFChars a.proxy_url)]⟩ := by
  simp [startTun2proxy, hs, hl, hr]

theorem start_ret_of_invoked (w : World) (s : Bridge) (a : StartArgs)
    (hs : s.t2p_handle = 0)
    (hl : w.dlopen "libtun2proxy.so" RTLD_LAZY ≠ 0)
    (hr : w.dlsym (w.dlopen "libtun2proxy.so" RTLD_LAZY)
            "tun2proxy_with_fd_run" ≠ 0) :
    (startTun2proxy w s a).ret
      = w.call_run
          (w.dlsym (w.dlopen "libtun2proxy.so" RTLD_LAZY)
            "tun2proxy_with_fd_run")
          (runArgs (w.GetStringUTFChars a.proxy_url) a) := by
  rw [start_invoked w s a hs hl hr]

theorem stop_absent (w : World) (s : Bridge) (hs : s.t2p_handle = 0) :
    stopTun2proxy w s = ⟨-1, s, []⟩ := by
  simp [stopTun2proxy, hs]

theorem stop_unresolved (w : World) (s : Bridge) (hs : s.t2p_handle ≠ 0)
    (hr : w.dlsym s.t2p_handle "tun2proxy_with_fd_stop" = 0) :
    stopTun2proxy w s
      = ⟨-2, s, [Event.dlsym s.t2p_handle "tun2proxy_with_fd_stop" 0]⟩ := by
  simp [stopTun2proxy, hs, hr]

theorem stop_invoked (w : World) (s : Bridge) (hs : s.t2p_handle ≠ 0)
    (hr : w.dlsym s.t2p_handle "tun2proxy_with_fd_stop" ≠ 0) :
    stopTun2proxy w s
      = ⟨w.call_stop (w.dlsym s.t2p_handle "tun2proxy_with_fd_stop"), s,
          [Event.dlsym s.t2p_handle "tun2proxy_with_fd_stop"
             (w.dlsym s.t2p_handle "tun2proxy_with_fd_stop"),
           Event.stop (w.dlsym s.t2p_handle "tun2proxy_with_fd_stop")
             (w.call_stop
               (w.dlsym s.t2p_handle "tun2proxy_with_fd_stop"))]⟩ := by
  simp [stopTun2proxy, hs, hr]

/-- The engine's run entry point is called exactly on the path that passed
the handle check, the load and the resolution. -/
theorem start_run_event_iff (w : World) (s : Bridge) (a : StartArgs) :
    (∃ f args r, Event.run f args r ∈ (startTun2proxy w s a).trace) ↔
      (s.t2p_handle = 0 ∧ w.dlopen "libtun2proxy.so" RTLD_LAZY ≠ 0 ∧
        w.dlsym (w.dlopen "libtun2proxy.so" RTLD_LAZY)
          "tun2proxy_with_fd_run" ≠ 0) := by
  by_cases hs : s.t2p_handle = 0
  · by_cases hl : w.dlopen "libtun2proxy.so" RTLD_LAZY = 0
    · simp [start_load_failed w s a hs hl, hs, hl]
    · by_cases hr : w.dlsym (w.dlopen "libtun2proxy.so" RTLD_LAZY)
          "tun2proxy_with_fd_run" = 0
      · simp [start_unresolved w s a hs hl hr, hs, hl, hr]
      · simp [start_invoked w s a hs hl hr, hs, hl, hr]
  · simp [start_held w s a hs, hs]

/-- Consecutive `stop` calls from a state without a handle all return `-1`
and never change the state. -/
theorem stopSeq_absent (ws : List World) (s : Bridge) (hs : s.t2p_handle = 0) :
    stopSeq ws s = (List.replicate ws.length (-1), s) := by
  induction ws with
  | nil => simp [stopSeq]
  | cons w ws ih => simp [stopSeq, stop_absent w s hs, ih, List.replicate_succ]

/-! ## The claims -/

/-- C1: in every state in which `t2p_handle` is non-null, and for every
world and argument tuple, `start` returns `-3`, makes no external call at all
(so no library load and no call of the engine's run entry point), and leaves
the state as it was. -/
theorem start_rejected_while_held (w : World) (s : Bridge) (a : StartArgs)
    (hs : s.t2p_handle ≠ 0) :
    (startTun2proxy w s a).ret = -3 ∧
      (startTun2proxy w s a).trace = [] ∧
      (startTun2proxy w s a).state = s := by
  simp [start_held w s a hs]

theorem start_rejected_while_held_witness :
    (Bridge.mk 7).t2p_handle ≠ 0 ∧
      (startTun2proxy (mockWorld 0) ⟨7⟩ scenarioA).ret = -3 ∧
      (startTun2proxy (mockWorld 0) ⟨7⟩ scenarioA).trace = [] ∧
      (startTun2proxy (mockWorld 0) ⟨7⟩ scenarioA).state = ⟨7⟩ :=
  ⟨by decide, start_rejected_while_held (mockWorld 0) ⟨7⟩ scenarioA (by decide)⟩

/-- C2: when no handle is held, the library loads and the run entry point
resolves, the engine's run entry point is called, and whatever integer `r` it
returns (negative or not) is what `start` returns. -/
theorem start_pass_through (w : World) (s : Bridge) (a : StartArgs) (r : Int)
    (hs : s.t2p_handle = 0)
    (hl : w.dlopen "libtun2proxy.so" RTLD_LAZY ≠ 0)
    (hr : w.dlsym (w.dlopen "libtun2proxy.so" RTLD_LAZY)
            "tun2proxy_with_fd_run" ≠ 0)
    (he : w.call_run
            (w.dlsym (w.dlopen "libtun2proxy.so" RTLD_LAZY)
              "tun2proxy_with_fd_run")
            (runArgs (w.GetStringUTFChars a.proxy_url) a) = r) :
    (startTun2proxy w s a).ret = r ∧
      Event.run
          (w.dlsym (w.dlopen "libtun2proxy.so" RTLD_LAZY)
            "tun2proxy_with_fd_run")
          (runArgs (w.GetStringUTFChars a.proxy_url) a) r
        ∈ (startTun2proxy w s a).trace := by
  subst he
  simp [start_invoked w s a hs hl hr]

/-- End-to-end scenario A: `start("socks5://127.0.0.1:1080", 42, true, 1500,
1, 0)` with an engine returning `0` returns `0`. -/
theorem start_pass_through_witness :
    (startTun2proxy (mockWorld 0) Bridge.init scenarioA).ret = 0 :=
  (start_pass_through (mockWorld 0) Bridge.init scenarioA 0
    rfl (by decide) (by decide) rfl).1

/-- C3: whenever a `start` call invokes the engine's run entry point, the
handle is null when `start` returns, whatever the engine returned; a `start`
issued next (in any world, with any arguments) therefore takes the load path:
its first external call is the `dlopen`, and it returns `-3` only if its own
engine call returned `-3`. -/
theorem start_clears_handle (w : World) (s : Bridge) (a : StartArgs)
    (w2 : World) (a2 : StartArgs)
    (h : ∃ f args r, Event.run f args r ∈ (startTun2proxy w s a).trace) :
    (startTun2proxy w s a).state.t2p_handle = 0 ∧
      (startTun2proxy w2 (startTun2proxy w s a).state a2).trace.head?
        = some (Event.dlopen "libtun2proxy.so" RTLD_LAZY
            (w2.dlopen "libtun2proxy.so" RTLD_LAZY)) ∧
      ((startTun2proxy w2 (startTun2proxy w s a).state a2).ret = -3 →
        engineStatus
          (startTun2proxy w2 (startTun2proxy w s a).state a2).trace
          = some (-3)) := by
  obtain ⟨hs, hl, hr⟩ := (start_run_event_iff w s a).1 h
  have h0 : (startTun2proxy w s a).state.t2p_handle = 0 := by
    simp [start_invoked w s a hs hl hr]
  refine ⟨h0, ?_, ?_⟩
  · by_cases hl2 : w2.dlopen "libtun2proxy.so" RTLD_LAZY = 0
    · simp [start_load_failed w2 _ a2 h0 hl2, hl2]
    · by_cases hr2 : w2.dlsym (w2.dlopen "libtun2proxy.so" RTLD_LAZY)
          "tun2proxy_with_fd_run" = 0
      · simp [start_unresolved w2 _ a2 h0 hl2 hr2]
      · simp [start_invoked w2 _ a2 h0 hl2 hr2]
  · by_cases hl2 : w2.dlopen "libtun2proxy.so" RTLD_LAZY = 0
    · simp [start_load_failed w2 _ a2 h0 hl2]
    · by_cases hr2 : w2.dlsym (w2.dlopen "libtun2proxy.so" RTLD_LAZY)
          "tun2proxy_with_fd_run" = 0
      · simp [start_unresolved w2 _ a2 h0 hl2 hr2]
      · simp only [start_invoked w2 _ a2 h0 hl2 hr2, engineStatus]
        intro h3
        rw [h3]

theorem start_clears_handle_witness :
    (∃ f args r, Event.run f args r
        ∈ (startTun2proxy (mockWorld (-5)) Bridge.init scenarioA).trace) ∧
      (startTun2proxy (mockWorld (-5)) Bridge.init scenarioA).state.t2p_handle
        = 0 ∧
      (startTun2proxy (mockWorld 0)
          (startTun2proxy (mockWorld (-5)) Bridge.init scenarioA).state
          scenarioA).trace.head?
        = some (Event.dlopen "libtun2proxy.so" RTLD_LAZY 7) :=
  have h : ∃ f args r, Event.run f args r
      ∈ (startTun2proxy (mockWorld (-5)) Bridge.init scenarioA).trace :=
    (start_run_event_iff (mockWorld (-5)) Bridge.init scenarioA).2
      ⟨rfl, by decide, by decide⟩
  have t := start_clears_handle (mockWorld (-5)) Bridge.init scenarioA
    (mockWorld 0) scenarioA h
  ⟨h, t.1, t.2.1⟩

/-- C4: when no handle is held and loading the library fails, `start` returns
`-1`, makes no call into the engine, and leaves the handle null; a `stop`
issued next (in any world) returns `-1` without any external call. -/
theorem start_load_failure (w : World) (s : Bridge) (a : StartArgs)
    (w2 : World)
    (hs : s.t2p_handle = 0)
    (hl : w.dlopen "libtun2proxy.so" RTLD_LAZY = 0) :
    (startTun2proxy w s a).ret = -1 ∧
      (∀ e ∈ (startTun2proxy w s a).trace, e.isEngineCall = false) ∧
      (startTun2proxy w s a).state.t2p_handle = 0 ∧
      (stopTun2proxy w2 (startTun2proxy w s a).state).ret = -1 ∧
      (stopTun2proxy w2 (startTun2proxy w s a).state).trace = [] := by
  simp [start_load_failed w s a hs hl, Event.isEngineCall, stop_absent]

theorem start_load_failure_witness :
    Bridge.init.t2p_handle = 0 ∧
      absentWorld.dlopen "libtun2proxy.so" RTLD_LAZY = 0 ∧
      (startTun2proxy absentWorld Bridge.init scenarioA).ret = -1 ∧
      (stopTun2proxy (mockWorld 0)
        (startTun2proxy absentWorld Bridge.init scenarioA).state).ret = -1 :=
  have t := start_load_failure absentWorld Bridge.init scenarioA (mockWorld 0)
    rfl rfl
  ⟨rfl, rfl, t.1, t.2.2.2.1⟩

/-- C5: when no handle is held, the library loads and the run entry point does
not resolve, `start` returns `-2`, makes no call into the engine, and keeps the
loaded library: on return `t2p_handle` is the non-null value `dlopen` gave. -/
theorem start_resolution_failure (w : World) (s : Bridge) (a : StartArgs)
    (hs : s.t2p_handle = 0)
    (hl : w.dlopen "libtun2proxy.so" RTLD_LAZY ≠ 0)
    (hr : w.dlsym (w.dlopen "libtun2proxy.so" RTLD_LAZY)
            "tun2proxy_with_fd_run" = 0) :
    (startTun2proxy w s a).ret = -2 ∧
      (∀ e ∈ (startTun2proxy w s a).trace, e.isEngineCall = false) ∧
      (startTun2proxy w s a).state.t2p_handle
        = w.dlopen "libtun2proxy.so" RTLD_LAZY ∧
      (startTun2proxy w s a).state.t2p_handle ≠ 0 := by
  simp [start_unresolved w s a hs hl hr, Event.isEngineCall, hl]

theorem start_resolution_failure_witness :
    Bridge.init.t2p_handle = 0 ∧
      noSymbolWorld.dlopen "libtun2proxy.so" RTLD_LAZY ≠ 0 ∧
      noSymbolWorld.dlsym (noSymbolWorld.dlopen "libtun2proxy.so" RTLD_LAZY)
        "tun2proxy_with_fd_run" = 0 ∧
      (startTun2proxy noSymbolWorld Bridge.init scenarioA).ret = -2 ∧
      (startTun2proxy noSymbolWorld Bridge.init scenarioA).state.t2p_handle
        ≠ 0 :=
  have t := start_resolution_failure noSymbolWorld Bridge.init scenarioA
    rfl (by decide) rfl
  ⟨rfl, by decide, rfl, t.1, t.2.2.2⟩

/-- C6, evaluated on the code: a `start` from the initial state against a
library that lacks the run symbol returns `-2` and leaves `t2p_handle = 7`;
the following `start`, although the library now exports the symbol and no
session is running, returns `-3` without reaching the load step. -/
theorem start_after_resolution_failure_rejected :
    startTun2proxy noSymbolWorld Bridge.init scenarioA
        = ⟨-2, ⟨7⟩,
            [Event.dlopen "libtun2proxy.so" RTLD_LAZY 7,
             Event.dlsym 7 "tun2proxy_with_fd_run" 0]⟩ ∧
      startTun2proxy (mockWorld 0)
          (startTun2proxy noSymbolWorld Bridge.init scenarioA).state scenarioA
        = ⟨-3, ⟨7⟩, []⟩ := by
  have h1 : startTun2proxy noSymbolWorld Bridge.init scenarioA
      = ⟨-2, ⟨7⟩,
          [Event.dlopen "libtun2proxy.so" RTLD_LAZY 7,
           Event.dlsym 7 "tun2proxy_with_fd_run" 0]⟩ :=
    start_unresolved noSymbolWorld Bridge.init scenarioA rfl (by decide) rfl
  refine ⟨h1, ?_⟩
  rw [h1]
  exact start_held (mockWorld 0) ⟨7⟩ scenarioA (by decide)

/-- C7: in every state without a handle (the initial state among them),
`stop` returns `-1`, makes no external call (no symbol lookup, no engine call)
and leaves the state unchanged; so any number of consecutive `stop` calls from
such a state, each in a world of its own, all return `-1`. -/
theorem stop_without_session (w : World) (ws : List World) (s : Bridge)
    (hs : s.t2p_handle = 0) :
    stopTun2proxy w s = ⟨-1, s, []⟩ ∧
      (stopSeq ws s).1 = List.replicate ws.length (-1) ∧
      (∀ r ∈ (stopSeq ws s).1, r = -1) ∧
      (stopSeq ws s).2 = s := by
  refine ⟨stop_absent w s hs, ?_, ?_, ?_⟩
  · rw [stopSeq_absent ws s hs]
  · rw [stopSeq_absent ws s hs]
    intro r hr
    exact (List.mem_replicate.1 hr).2
  · rw [stopSeq_absent ws s hs]

theorem stop_without_session_witness :
    Bridge.init.t2p_handle = 0 ∧
      stopTun2proxy (mockWorld 0) Bridge.init = ⟨-1, Bridge.init, []⟩ ∧
      (stopSeq [mockWorld 0, absentWorld, noSymbolWorld] Bridge.init).1
        = [-1, -1, -1] :=
  have t := stop_without_session (mockWorld 0)
    [mockWorld 0, absentWorld, noSymbolWorld] Bridge.init rfl
  ⟨rfl, t.1, t.2.1⟩

/-- C8: in every state in which the handle is held, `stop` returns `-2` when
the stop entry point does not resolve in the loaded library and otherwise
returns exactly what the engine's stop entry point returns; either way the
handle after `stop` is the handle before it. -/
theorem stop_with_session (w : World) (s : Bridge) (hs : s.t2p_handle ≠ 0) :
    (w.dlsym s.t2p_handle "tun2proxy_with_fd_stop" = 0 →
        (stopTun2proxy w s).ret = -2) ∧
      (w.dlsym s.t2p_handle "tun2proxy_with_fd_stop" ≠ 0 →
        (stopTun2proxy w s).ret
            = w.call_stop (w.dlsym s.t2p_handle "tun2proxy_with_fd_stop") ∧
          Event.stop (w.dlsym s.t2p_handle "tun2proxy_with_fd_stop")
              (stopTun2proxy w s).ret
            ∈ (stopTun2proxy w s).trace) ∧
      (stopTun2proxy w s).state = s := by
  by_cases hr : w.dlsym s.t2p_handle "tun2proxy_with_fd_stop" = 0
  · simp [stop_unresolved w s hs hr, hr]
  · simp [stop_invoked w s hs hr, hr]

theorem stop_with_session_witness :
    (Bridge.mk 7).t2p_handle ≠ 0 ∧
      (stopTun2proxy noSymbolWorld ⟨7⟩).ret = -2 ∧
      (stopTun2proxy (mockWorld (-9)) ⟨7⟩).ret = -9 ∧
      (stopTun2proxy (mockWorld (-9)) ⟨7⟩).state = ⟨7⟩ :=
  ⟨by decide,
   (stop_with_session noSymbolWorld ⟨7⟩ (by decide)).1 rfl,
   ((stop_with_session (mockWorld (-9)) ⟨7⟩ (by decide)).2.1 (by decide)).1,
   (stop_with_session (mockWorld (-9)) ⟨7⟩ (by decide)).2.2⟩

/-- C9, evaluated on the code: in scenario A the host passes `verbosity = 1`
and `dns_strategy = 0`, and the engine's run entry point receives
`dns_strategy = 1` and `verbosity = 0`: each value arrives in the other one's
parameter. -/
theorem start_swaps_verbosity_and_dns :
    scenarioA.verbosity = 1 ∧ scenarioA.dns_strategy = 0 ∧
      engineArgs (startTun2proxy (mockWorld 0) Bridge.init scenarioA).trace
        = some { proxy_endpoint := some "socks5://127.0.0.1:1080"
                 tun_fd := 42
                 close_fd_on_drop := true
                 some_reserved_bool := false
                 tun_mtu := 1500
                 dns_strategy := 1
                 verbosity := 0 } := by
  refine ⟨rfl, rfl, ?_⟩
  rw [start_invoked (mockWorld 0) Bridge.init scenarioA rfl (by decide)
    (by decide)]
  rfl

/-- C10 fails as stated: with no handle held, a library that loads and a run
entry point that resolves, an engine reporting `-3` makes `start` return `-3`,
so `-3` does not imply that a handle was held on entry. -/
theorem start_status_ambiguous :
    ¬ ((startTun2proxy (mockWorld (-3)) Bridge.init scenarioA).ret = -3 →
        Bridge.init.t2p_handle ≠ 0) := by
  intro h
  exact h (start_ret_of_invoked (mockWorld (-3)) Bridge.init scenarioA
    rfl (by decide) (by decide)) rfl

/-- C10 as amended: `start` returns `-3` only if a handle was held on entry or
the engine's run entry point itself returned `-3`; `-1` only if the library
load failed or the engine itself returned `-1`; `-2` only if the run entry
point did not resolve or the engine itself returned `-2`.  Hence, when the
engine was not invoked or reported a status other than `-1`, `-2`, `-3`, the
code of `start` identifies the bridge-detected failure. -/
theorem start_status_origin (w : World) (s : Bridge) (a : StartArgs) :
    ((startTun2proxy w s a).ret = -3 →
        s.t2p_handle ≠ 0 ∨
          engineStatus (startTun2proxy w s a).trace = some (-3)) ∧
      ((startTun2proxy w s a).ret = -1 →
        Event.dlopen "libtun2proxy.so" RTLD_LAZY 0
            ∈ (startTun2proxy w s a).trace ∨
          engineStatus (startTun2proxy w s a).trace = some (-1)) ∧
      ((startTun2proxy w s a).ret = -2 →
        (∃ h, Event.dlsym h "tun2proxy_with_fd_run" 0
            ∈ (startTun2proxy w s a).trace) ∨
          engineStatus (startTun2proxy w s a).trace = some (-2)) ∧
      ((engineStatus (startTun2proxy w s a).trace ≠ some (-3) ∧
          engineStatus (startTun2proxy w s a).trace ≠ some (-1) ∧
          engineStatus (startTun2proxy w s a).trace ≠ some (-2)) →
        ((startTun2proxy w s a).ret = -3 → s.t2p_handle ≠ 0) ∧
        ((startTun2proxy w s a).ret = -1 →
          Event.dlopen "libtun2proxy.so" RTLD_LAZY 0
            ∈ (startTun2proxy w s a).trace) ∧
        ((startTun2proxy w s a).ret = -2 →
          ∃ h, Event.dlsym h "tun2proxy_with_fd_run" 0
            ∈ (startTun2proxy w s a).trace)) := by
  by_cases hs : s.t2p_handle = 0
  · by_cases hl : w.dlopen "libtun2proxy.so" RTLD_LAZY = 0
    · simp [start_load_failed w s a hs hl, engineStatus]
    · by_cases hr : w.dlsym (w.dlopen "libtun2proxy.so" RTLD_LAZY)
          "tun2proxy_with_fd_run" = 0
      · simp [start_unresolved w s a hs hl hr, engineStatus]
      · simp only [start_invoked w s a hs hl hr, engineStatus]
        refine ⟨fun h => Or.inr (by rw [h]), fun h => Or.inr (by rw [h]),
          fun h => Or.inr (by rw [h]), ?_⟩
        rintro ⟨h3, h1, h2⟩
        exact ⟨fun h => absurd (by rw [h]) h3, fun h => absurd (by rw [h]) h1,
          fun h => absurd (by rw [h]) h2⟩
  · simp [start_held w s a hs, hs, engineStatus]

theorem start_status_origin_witness :
    (startTun2proxy noSymbolWorld Bridge.init scenarioA).ret = -2 ∧
      ((∃ h, Event.dlsym h "tun2proxy_with_fd_run" 0
          ∈ (startTun2proxy noSymbolWorld Bridge.init scenarioA).trace) ∨
        engineStatus (startTun2proxy noSymbolWorld Bridge.init scenarioA).trace
          = some (-2)) :=
  have h : (startTun2proxy noSymbolWorld Bridge.init scenarioA).ret = -2 := by
    rw [start_unresolved noSymbolWorld Bridge.init scenarioA rfl (by decide)
      rfl]
  ⟨h, (start_status_origin noSymbolWorld Bridge.init scenarioA).2.2.1 h⟩

end NativeLib
